import Mathlib

/-! Shallow embedding of the Levichatbot conditional survey engine.

Source files embedded:
- src/backend/app/models/survey.py      (Condition, Question, SurveyState, Survey,
                                         SurveyResponse, and the models-level
                                         SurveyService.get_survey_analytics)
- src/backend/app/services/survey_service.py  (the service-level SurveyService:
                                         submit_answer, create_survey, add_question,
                                         get_survey_results)

Modelling conventions:
- Python dynamic values that flow through answers and condition references are a
  tagged union Value (None, str, numbers as rationals, bool).  Python int/float
  are collapsed into one rational constructor: every comparison and equality the
  engine performs on numbers is exact, so rationals are a faithful carrier.
- Python float(x) is pyFloat : Value -> Option Rat; on strings it parses simple
  signed decimal literals (Python additionally accepts exponents, whitespace,
  inf/nan, which the engine never relies on); None and non-coercible strings
  yield Option.none, which models the raised ValueError/TypeError.
- Raised exceptions are Except.error values: PyErr.http models fastapi
  HTTPException(status, detail), PyErr.exc an uncaught ValueError/TypeError,
  PyErr.attrErr an AttributeError.
- Python dicts (which preserve insertion order) are association lists with
  getEntry / setEntry; datetimes are abstract Nat ticks supplied by the caller.
- Stateful methods become explicit state passing: a method that mutates its
  object returns the updated object alongside its Python return value.
-/

namespace Levi

inductive PyErr where
  | http (status : Nat) (detail : String)
  | exc
  | attrErr
deriving DecidableEq

inductive QuestionType where
  | scale
  | multiple_choice
  | text
  | voice
deriving DecidableEq

inductive ConditionalOperator where
  | equals
  | greater_than
  | less_than
deriving DecidableEq

/-- Tagged union for Python values stored in answers and condition references. -/
inductive Value where
  | pyNone
  | str (s : String)
  | num (q : ℚ)
  | boolV (b : Bool)
deriving DecidableEq

/-- Python structural equality on embedded values: numbers compare across
int/float (both are num), True == 1 and False == 0, all other cross-type
comparisons are unequal. -/
def valueEq : Value → Value → Bool
  | Value.pyNone, Value.pyNone => true
  | Value.str a, Value.str b => a == b
  | Value.num a, Value.num b => decide (a = b)
  | Value.boolV a, Value.boolV b => a == b
  | Value.boolV a, Value.num b => decide ((if a then (1 : ℚ) else 0) = b)
  | Value.num a, Value.boolV b => decide (a = (if b then (1 : ℚ) else 0))
  | _, _ => false

def digitsToNat (l : List Char) : Nat :=
  l.foldl (fun acc c => acc * 10 + (c.toNat - 48)) 0

/-- Python float(s) on a string: simple signed decimal literals.  Anything
else (for example a non-numeric word) fails, modelling the raised ValueError. -/
def parseDecimal (s : String) : Option ℚ :=
  let cs := s.toList
  let signAndRest : ℚ × List Char :=
    match cs with
    | '-' :: r => (-1, r)
    | '+' :: r => (1, r)
    | r => (1, r)
  let sign := signAndRest.1
  let rest := signAndRest.2
  let intPart := rest.takeWhile Char.isDigit
  let after := rest.dropWhile Char.isDigit
  match after with
  | [] => if intPart.isEmpty then Option.none else some (sign * (digitsToNat intPart : ℚ))
  | '.' :: frac =>
      if frac.all Char.isDigit && (!intPart.isEmpty || !frac.isEmpty) then
        some (sign * ((digitsToNat intPart : ℚ) + (digitsToNat frac : ℚ) / ((10 : ℚ) ^ frac.length)))
      else Option.none
  | _ => Option.none

/-- Python float(x) as partial numeric coercion; Option.none models the raised
ValueError (non-numeric string) or TypeError (None). -/
def pyFloat : Value → Option ℚ
  | Value.num q => some q
  | Value.boolV b => some (if b then 1 else 0)
  | Value.str s => parseDecimal s
  | Value.pyNone => Option.none

/-- survey.py lines 18-21: Condition model. -/
structure Condition where
  previous_question_id : String
  operator : ConditionalOperator
  value : Value
deriving DecidableEq

/-- survey.py lines 23-34: Condition.evaluate.  The source performs
float(previous_answer) and float(self.value) with no try/except, so a failed
coercion is a raised exception (Except.error), not a returned False. -/
def Condition.evaluate (c : Condition) (previous_answer : Value) : Except PyErr Bool :=
  if previous_answer = Value.pyNone then Except.ok false
  else
    match c.operator with
    | ConditionalOperator.equals => Except.ok (valueEq previous_answer c.value)
    | ConditionalOperator.greater_than =>
        match pyFloat previous_answer, pyFloat c.value with
        | some a, some b => Except.ok (decide (b < a))
        | _, _ => Except.error PyErr.exc
    | ConditionalOperator.less_than =>
        match pyFloat previous_answer, pyFloat c.value with
        | some a, some b => Except.ok (decide (a < b))
        | _, _ => Except.error PyErr.exc

/-- survey.py lines 36-48: Question model (uuid default id, the unused
follow_up_question_id and the created/updated timestamps are not needed by any
engine logic and are omitted). -/
structure Question where
  id : String
  order : Int
  text : String
  type : QuestionType
  is_final : Bool := false
  required : Bool := true
  options : Option (List String) := Option.none
  scale_range : Option (Int × Int) := Option.none
  conditions : Option (List Condition) := Option.none
deriving DecidableEq

/-- dict.get on an insertion-ordered Python dict. -/
def getEntry {α : Type} : List (String × α) → String → Option α
  | [], _ => Option.none
  | (k, v) :: rest, key => if k == key then some v else getEntry rest key

/-- dict[key] = value on an insertion-ordered Python dict: replaces in place
when the key exists, appends otherwise. -/
def setEntry {α : Type} : List (String × α) → String → α → List (String × α)
  | [], key, value => [(key, value)]
  | (k, v) :: rest, key, value =>
      if k == key then (k, value) :: rest else (k, v) :: setEntry rest key value

/-- The generator inside all(...) in Question.should_show: conditions are
evaluated left to right and evaluation short-circuits on the first False, so a
later raising condition is not reached.  previous_answers.get returns None for
an absent key. -/
def evalConditionList : List Condition → List (String × Value) → Except PyErr Bool
  | [], _ => Except.ok true
  | c :: rest, answers =>
      match c.evaluate ((getEntry answers c.previous_question_id).getD Value.pyNone) with
      | Except.error e => Except.error e
      | Except.ok false => Except.ok false
      | Except.ok true => evalConditionList rest answers

/-- survey.py lines 50-58: Question.should_show.  A None or empty condition
list is falsy in Python, so the question is always shown. -/
def Question.should_show (q : Question) (previous_answers : List (String × Value)) :
    Except PyErr Bool :=
  match q.conditions with
  | Option.none => Except.ok true
  | some [] => Except.ok true
  | some cs => evalConditionList cs previous_answers

/-- survey.py lines 65-73: SurveyState (last_interaction as an abstract tick). -/
structure SurveyState where
  current_question_idx : Int := 0
  answered_questions : List String := []
  skipped_questions : List String := []
  answers : List (String × Value) := []
  is_structured_complete : Bool := false
  is_complete : Bool := false
  last_interaction : Nat := 0
deriving DecidableEq

/-- survey.py lines 75-79: SurveyState.add_answer; datetime.now() is the
caller-supplied tick. -/
def SurveyState.add_answer (st : SurveyState) (question_id : String) (answer : Value)
    (now : Nat) : SurveyState :=
  { st with
    answered_questions := st.answered_questions ++ [question_id],
    answers := setEntry st.answers question_id answer,
    last_interaction := now }

/-- survey.py lines 81-83: SurveyState.skip_question. -/
def SurveyState.skip_question (st : SurveyState) (question_id : String) : SurveyState :=
  { st with skipped_questions := st.skipped_questions ++ [question_id] }

/-- survey.py lines 85-92: Survey model (timestamps omitted as engine-inert). -/
structure Survey where
  id : String
  title : String := ""
  description : String := ""
  questions : List Question
  is_active : Bool := true
deriving DecidableEq

/-- survey.py lines 100-104: the is_structured_complete branch of
get_next_question: return the first is_final question unless already answered.
The state is not modified by this branch. -/
def Survey.finalPhase (s : Survey) (st : SurveyState) :
    SurveyState × Except PyErr (Option Question) :=
  match s.questions.find? (fun q => q.is_final) with
  | some fq =>
      if st.answered_questions.contains fq.id then (st, Except.ok Option.none)
      else (st, Except.ok (some fq))
  | Option.none => (st, Except.ok Option.none)

/-- Stable insertion step for list.sort(key=order): an element is placed before
the first element of strictly greater-or-equal order that originally came later,
preserving the original relative order of equal keys as Python's stable sort does. -/
def insertByOrder (q : Question) : List Question → List Question
  | [] => [q]
  | p :: ps => if q.order ≤ p.order then q :: p :: ps else p :: insertByOrder q ps

/-- pending_questions.sort(key=lambda x: x.order): stable sort by order. -/
def sortByOrder : List Question → List Question
  | [] => []
  | q :: qs => insertByOrder q (sortByOrder qs)

/-- survey.py lines 107-115: the non-final, unanswered, unskipped candidates,
sorted ascending by order. -/
def pendingSorted (s : Survey) (st : SurveyState) : List Question :=
  sortByOrder (s.questions.filter
    (fun q => !q.is_final && !(st.answered_questions.contains q.id)
      && !(st.skipped_questions.contains q.id)))

/-- survey.py lines 118-120: the scan over sorted candidates; an exception
raised inside should_show propagates. -/
def findFirstShown : List Question → List (String × Value) → Except PyErr (Option Question)
  | [], _ => Except.ok Option.none
  | q :: rest, answers =>
      match q.should_show answers with
      | Except.error e => Except.error e
      | Except.ok true => Except.ok (some q)
      | Except.ok false => findFirstShown rest answers

/-- survey.py lines 94-124: Survey.get_next_question.  The source ends with
state.is_structured_complete = True followed by a recursive self-call; since
is_complete is unchanged and the flag is now True, that recursive call lands
exactly in the is_structured_complete branch, embedded here as finalPhase.
The returned state is the (possibly mutated) session state. -/
def Survey.get_next_question (s : Survey) (st : SurveyState) :
    SurveyState × Except PyErr (Option Question) :=
  if st.is_complete then (st, Except.ok Option.none)
  else if st.is_structured_complete then s.finalPhase st
  else
    match findFirstShown (pendingSorted s st) st.answers with
    | Except.error e => (st, Except.error e)
    | Except.ok (some q) => (st, Except.ok (some q))
    | Except.ok Option.none => s.finalPhase { st with is_structured_complete := true }

/-- Python: answer is None or answer == "". -/
def pyEmpty (v : Value) : Bool :=
  decide (v = Value.pyNone) || valueEq v (Value.str (""))

/-- survey.py lines 126-141: Survey.validate_answer.  The scale branch wraps
both the coercion and the range lookup in try/except (ValueError, TypeError),
so a missing scale_range or a non-coercible value yields False.  The
multiple_choice membership test is outside any try block: options = None makes
the Python expression (answer in None) raise an uncaught TypeError. -/
def Survey.validate_answer (_s : Survey) (question : Question) (answer : Value) :
    Except PyErr Bool :=
  if question.required && pyEmpty answer then Except.ok false
  else if question.type = QuestionType.scale then
    Except.ok (match pyFloat answer, question.scale_range with
      | some v, some (lo, hi) => decide ((lo : ℚ) ≤ v) && decide (v ≤ (hi : ℚ))
      | _, _ => false)
  else if question.type = QuestionType.multiple_choice then
    match question.options with
    | some opts => Except.ok (opts.any (fun o => valueEq answer (Value.str o)))
    | Option.none => Except.error PyErr.exc
  else Except.ok true

/-- survey.py lines 60-63: Answer model (timestamp as abstract tick). -/
structure SurveyAnswer where
  question_id : String
  value : Value
  timestamp : Nat := 0
deriving DecidableEq

/-- survey.py lines 146-153: SurveyResponse (conversation_id engine-inert,
timestamps as abstract ticks; completed_at None until complete()). -/
structure SurveyResponse where
  survey_id : String
  user_id : String
  answers : List SurveyAnswer := []
  completed : Bool := false
  created_at : Nat := 0
  completed_at : Option Nat := Option.none
deriving DecidableEq

/-- survey_service.py lines 12-16: the service-level SurveyService state.
Its init assigns self.surveys and self.survey_states only; self.responses is
never assigned anywhere on this class, so the attribute is modelled as an
Option that a freshly constructed service leaves at Option.none, and reading
it through Option.none is the raised AttributeError. -/
structure SurveyService where
  surveys : List (String × Survey) := []
  survey_states : List (String × List (String × SurveyState)) := []
  responses : Option (List (String × List (String × SurveyResponse))) := Option.none
deriving DecidableEq

/-- survey_service.py line 233: self.survey_states.get(survey_id, dict()).get(user_id). -/
def SurveyService.stateOf (svc : SurveyService) (survey_id user_id : String) :
    Option SurveyState :=
  getEntry ((getEntry svc.survey_states survey_id).getD []) user_id

/-- In-place mutation of the SurveyState object held in the nested dict. -/
def SurveyService.putState (svc : SurveyService) (survey_id user_id : String)
    (st : SurveyState) : SurveyService :=
  { svc with
    survey_states := setEntry svc.survey_states survey_id
      (setEntry ((getEntry svc.survey_states survey_id).getD []) user_id st) }

/-- The Python return value of submit_answer: either the completion message
dict or the next-question dict with its progress snapshot. -/
inductive SubmitResult where
  | completedMsg
  | nextQ (q : Question) (answered total : Nat) (is_final_q : Bool)
deriving DecidableEq

/-- survey_service.py lines 222-270: SurveyService.submit_answer.  The answer
dict is passed as its two fields.  The function checks survey, session,
question membership and validation in that order, mutates the session only
after all four checks, and derives completion from get_next_question returning
None.  The first component of the result is the post-call service state (an
exception raised inside get_next_question still leaves the already-performed
add_answer mutation in place, since Python mutates the state object before the
raise propagates). -/
def SurveyService.submit_answer (svc : SurveyService) (survey_id user_id : String)
    (answer_question_id : String) (answer_value : Value) (now : Nat) :
    SurveyService × Except PyErr SubmitResult :=
  match getEntry svc.surveys survey_id with
  | Option.none => (svc, Except.error (PyErr.http 404 ("Survey not found")))
  | some survey =>
    match svc.stateOf survey_id user_id with
    | Option.none => (svc, Except.error (PyErr.http 400 ("Survey session not found")))
    | some state =>
      match survey.questions.find? (fun q => q.id == answer_question_id) with
      | Option.none => (svc, Except.error (PyErr.http 400 ("Question not found")))
      | some question =>
        match survey.validate_answer question answer_value with
        | Except.error e => (svc, Except.error e)
        | Except.ok false => (svc, Except.error (PyErr.http 400 ("Invalid answer")))
        | Except.ok true =>
          let state1 := state.add_answer answer_question_id answer_value now
          match survey.get_next_question state1 with
          | (state2, Except.error e) =>
              (svc.putState survey_id user_id state2, Except.error e)
          | (state2, Except.ok Option.none) =>
              (svc.putState survey_id user_id { state2 with is_complete := true },
               Except.ok SubmitResult.completedMsg)
          | (state2, Except.ok (some nq)) =>
              (svc.putState survey_id user_id state2,
               Except.ok (SubmitResult.nextQ nq state2.answered_questions.length
                 ((survey.questions.filter (fun q => !q.is_final)).length) nq.is_final))

/-- survey_service.py lines 139-147: create_survey.  Survey(**survey_data) is
pydantic construction: its validation is type-shape only, reflected here by the
argument already being a well-typed Survey; no definition-level checks exist,
the survey is stored unconditionally. -/
def SurveyService.create_survey (svc : SurveyService) (survey : Survey) :
    Survey × SurveyService :=
  (survey, { svc with surveys := setEntry svc.surveys survey.id survey })

/-- survey_service.py lines 320-333: add_question (the second, surviving
definition of that name in the class).  The question is appended with no
definition-level validation beyond pydantic construction. -/
def SurveyService.add_question (svc : SurveyService) (survey_id : String)
    (question : Question) : SurveyService × Except PyErr Survey :=
  match getEntry svc.surveys survey_id with
  | Option.none => (svc, Except.error (PyErr.http 404 ("Survey not found")))
  | some survey =>
      let s2 := { survey with questions := survey.questions ++ [question] }
      ({ svc with surveys := setEntry svc.surveys survey_id s2 }, Except.ok s2)

/-- One bump of collections.Counter: counts keyed by equality, keys kept in
first-occurrence order. -/
def bumpCount : List (Value × Nat) → Value → List (Value × Nat)
  | [], v => [(v, 1)]
  | (w, n) :: rest, v =>
      if valueEq w v then (w, n + 1) :: rest else (w, n) :: bumpCount rest v

def counterOf (vs : List Value) : List (Value × Nat) :=
  vs.foldl bumpCount []

/-- The per-question entry of get_survey_results question_analysis. -/
inductive QuestionAnalysis where
  | distributed (question_text : String) (ty : QuestionType) (dist : List (Value × Nat))
  | collected (question_text : String) (ty : QuestionType) (vals : List Value)
deriving DecidableEq

structure ResultsReport where
  total_responses : Nat
  completed_responses : Nat
  completion_rate : ℚ
  question_analysis : List (String × QuestionAnalysis)
deriving DecidableEq

/-- get_survey_results returns either the "No responses found" message dict or
the analytics dict (which carries no average_completion_time field). -/
inductive ResultsOutcome where
  | message (m : String)
  | report (r : ResultsReport)
deriving DecidableEq

/-- survey_service.py lines 286-311: the per-question analysis loop. -/
def analyzeQuestion (responses : List SurveyResponse) (q : Question) : QuestionAnalysis :=
  let answers := responses.filterMap
    (fun r => (r.answers.find? (fun a => a.question_id == q.id)).map (fun a => a.value))
  if q.type = QuestionType.scale || q.type = QuestionType.multiple_choice then
    QuestionAnalysis.distributed q.text q.type (counterOf answers)
  else
    QuestionAnalysis.collected q.text q.type answers

/-- survey_service.py lines 272-318: SurveyService.get_survey_results.  It
first re-raises get_survey's 404 for an unknown id, then reads self.responses:
that attribute is never initialized by this class, so the read raises
AttributeError (the Option.none case).  Were the attribute present, an empty
response set returns the message dict, not a zero-valued report. -/
def SurveyService.get_survey_results (svc : SurveyService) (survey_id : String) :
    Except PyErr ResultsOutcome :=
  match getEntry svc.surveys survey_id with
  | Option.none => Except.error (PyErr.http 404 ("Survey not found"))
  | some survey =>
    match svc.responses with
    | Option.none => Except.error PyErr.attrErr
    | some rmap =>
      let responses := ((getEntry rmap survey_id).getD []).map Prod.snd
      if responses.isEmpty then Except.ok (ResultsOutcome.message ("No responses found"))
      else
        Except.ok (ResultsOutcome.report
          { total_responses := responses.length,
            completed_responses := (responses.filter (fun r => r.completed)).length,
            completion_rate :=
              if responses.length > 0 then
                ((responses.filter (fun r => r.completed)).length : ℚ)
                  / (responses.length : ℚ) * 100
              else 0,
            question_analysis :=
              survey.questions.map (fun q => (q.id, analyzeQuestion responses q)) })

/-- Append of one answer value under its question id, keys in first-occurrence
order, mirroring the answer_distribution dict building loop. -/
def appendVal : List (String × List Value) → String → Value → List (String × List Value)
  | [], k, v => [(k, [v])]
  | (k2, vs) :: rest, k, v =>
      if k2 == k then (k2, vs ++ [v]) :: rest else (k2, vs) :: appendVal rest k v

/-- models/survey.py lines 279-285: the answer_distribution building loop. -/
def distributionOf (responses : List SurveyResponse) : List (String × List Value) :=
  responses.foldl
    (fun acc r => r.answers.foldl (fun a ans => appendVal a ans.question_id ans.value) acc)
    []

/-- The analytics dict returned by the models-level get_survey_analytics. -/
structure AnalyticsReport where
  total_responses : Nat
  completed_responses : Nat
  completion_rate : ℚ
  average_completion_time_seconds : ℚ
  answer_distribution : List (String × List Value)
deriving DecidableEq

/-- models/survey.py lines 262-293: the models-level
SurveyService.get_survey_analytics, as a function of its only state dependency
(the responses store).  Option.none is the early return of the empty dict when
the survey id has no entry; completion times use only responses that are
completed and have a non-None completed_at, and both averages guard division
by zero. -/
def get_survey_analytics (responses : List (String × List (String × SurveyResponse)))
    (survey_id : String) : Option AnalyticsReport :=
  match getEntry responses survey_id with
  | Option.none => Option.none
  | some m =>
    let rs := m.map Prod.snd
    let completion_times := rs.filterMap
      (fun r => if r.completed then
          r.completed_at.map (fun c => (c : ℤ) - (r.created_at : ℤ))
        else Option.none)
    some
      { total_responses := rs.length,
        completed_responses := (rs.filter (fun r => r.completed)).length,
        completion_rate :=
          if rs.length > 0 then
            ((rs.filter (fun r => r.completed)).length : ℚ) / (rs.length : ℚ) * 100
          else 0,
        average_completion_time_seconds :=
          if completion_times.isEmpty then 0
          else ((completion_times.foldl (fun a b => a + b) 0 : ℤ) : ℚ)
            / (completion_times.length : ℚ),
        answer_distribution := distributionOf rs }

/-- The malformation the spec's InvalidDefinition names: a multiple_choice
question without an options list, or a scale question whose range has
min strictly greater than max. -/
def malformedQuestion (q : Question) : Bool :=
  (q.type = QuestionType.multiple_choice && q.options = Option.none)
    || (match q.type, q.scale_range with
        | QuestionType.scale, some (lo, hi) => decide (hi < lo)
        | _, _ => false)

/-- Number of questions flagged is_final in a survey. -/
def countFinal (s : Survey) : Nat :=
  (s.questions.filter (fun q => q.is_final)).length

/-! Helper lemmas -/

theorem getEntry_setEntry_self {α : Type} (m : List (String × α)) (k : String) (v : α) :
    getEntry (setEntry m k v) k = some v := by
  induction m with
  | nil => simp [getEntry, setEntry]
  | cons hd tl ih =>
      obtain ⟨k2, v2⟩ := hd
      by_cases h : k2 = k
      · simp [getEntry, setEntry, h]
      · simp [getEntry, setEntry, h, ih]

theorem stateOf_putState (svc : SurveyService) (sid uid : String) (st : SurveyState) :
    (svc.putState sid uid st).stateOf sid uid = some st := by
  simp [SurveyService.stateOf, SurveyService.putState, getEntry_setEntry_self]

theorem evalConditionList_all (cs : List Condition) (ans : List (String × Value))
    (h : evalConditionList cs ans = Except.ok true) :
    ∀ c ∈ cs, c.evaluate ((getEntry ans c.previous_question_id).getD Value.pyNone)
      = Except.ok true := by
  induction cs with
  | nil => intro c hc; cases hc
  | cons hd tl ih =>
      intro c hc
      rw [evalConditionList] at h
      cases he : hd.evaluate ((getEntry ans hd.previous_question_id).getD Value.pyNone) with
      | error e => rw [he] at h; cases h
      | ok b =>
          cases b with
          | false => rw [he] at h; cases h
          | true =>
              rw [he] at h
              rcases List.mem_cons.mp hc with hceq | hmem
              · rw [hceq]; exact he
              · exact ih h c hmem

theorem should_show_true (q : Question) (ans : List (String × Value))
    (h : q.should_show ans = Except.ok true) (cs : List Condition)
    (hcs : q.conditions = some cs) :
    ∀ c ∈ cs, c.evaluate ((getEntry ans c.previous_question_id).getD Value.pyNone)
      = Except.ok true := by
  rw [Question.should_show, hcs] at h
  cases cs with
  | nil => intro c hc; cases hc
  | cons hd tl => exact evalConditionList_all (hd :: tl) ans h

theorem evaluate_absent (c : Condition) : c.evaluate Value.pyNone = Except.ok false := by
  rw [Condition.evaluate]
  simp

theorem findFirstShown_some (l : List Question) (ans : List (String × Value))
    (q : Question) (h : findFirstShown l ans = Except.ok (some q)) :
    q ∈ l ∧ q.should_show ans = Except.ok true := by
  induction l with
  | nil => rw [findFirstShown] at h; cases h
  | cons hd tl ih =>
      cases hs : hd.should_show ans with
      | error e =>
          have heq : findFirstShown (hd :: tl) ans = Except.error e := by
            rw [findFirstShown, hs]
          rw [heq] at h
          cases h
      | ok b =>
          cases b with
          | false =>
              have heq : findFirstShown (hd :: tl) ans = findFirstShown tl ans := by
                rw [findFirstShown, hs]
              rw [heq] at h
              obtain ⟨hm, hsh⟩ := ih h
              exact ⟨List.mem_cons_of_mem _ hm, hsh⟩
          | true =>
              have heq : findFirstShown (hd :: tl) ans = Except.ok (some hd) := by
                rw [findFirstShown, hs]
              rw [heq] at h
              cases h
              exact ⟨List.mem_cons_self _ _, hs⟩

theorem mem_insertByOrder (a q : Question) (l : List Question) :
    a ∈ insertByOrder q l ↔ a = q ∨ a ∈ l := by
  induction l with
  | nil => simp [insertByOrder]
  | cons hd tl ih =>
      rw [insertByOrder]
      by_cases h : q.order ≤ hd.order
      · simp only [if_pos h, List.mem_cons]
      · simp only [if_neg h, List.mem_cons, ih]
        tauto

theorem mem_sortByOrder (a : Question) (l : List Question) :
    a ∈ sortByOrder l ↔ a ∈ l := by
  induction l with
  | nil => simp [sortByOrder]
  | cons hd tl ih => simp [sortByOrder, mem_insertByOrder, ih]

theorem finalPhase_fst (s : Survey) (st : SurveyState) : (s.finalPhase st).1 = st := by
  cases hf : s.questions.find? (fun q => q.is_final) with
  | none => simp [Survey.finalPhase, hf]
  | some fq =>
      by_cases hc : fq.id ∈ st.answered_questions
      · simp [Survey.finalPhase, hf, hc]
      · simp [Survey.finalPhase, hf, hc]

theorem finalPhase_some (s : Survey) (st : SurveyState) (q : Question)
    (h : (s.finalPhase st).2 = Except.ok (some q)) :
    s.questions.find? (fun x => x.is_final) = some q ∧ q.is_final = true
      ∧ q.id ∉ st.answered_questions := by
  cases hf : s.questions.find? (fun x => x.is_final) with
  | none =>
      have heq : (s.finalPhase st).2 = Except.ok Option.none := by
        rw [Survey.finalPhase, hf]
      rw [heq] at h
      cases h
  | some fq =>
      by_cases hc : fq.id ∈ st.answered_questions
      · have heq : (s.finalPhase st).2 = Except.ok Option.none := by
          simp [Survey.finalPhase, hf, hc]
        rw [heq] at h
        cases h
      · have heq : (s.finalPhase st).2 = Except.ok (some fq) := by
          simp [Survey.finalPhase, hf, hc]
        rw [heq] at h
        have hqq : fq = q := Option.some.inj (Except.ok.inj h)
        subst hqq
        exact ⟨rfl, List.find?_some hf, hc⟩

theorem gnq_eq_done (s : Survey) (st : SurveyState) (h : st.is_complete = true) :
    s.get_next_question st = (st, Except.ok Option.none) := by
  rw [Survey.get_next_question, if_pos h]

theorem gnq_eq_structured (s : Survey) (st : SurveyState) (h1 : st.is_complete = false)
    (h2 : st.is_structured_complete = true) : s.get_next_question st = s.finalPhase st := by
  rw [Survey.get_next_question]
  simp [h1, h2]

theorem gnq_eq_scan_err (s : Survey) (st : SurveyState) (e : PyErr)
    (h1 : st.is_complete = false) (h2 : st.is_structured_complete = false)
    (hscan : findFirstShown (pendingSorted s st) st.answers = Except.error e) :
    s.get_next_question st = (st, Except.error e) := by
  rw [Survey.get_next_question]
  simp [h1, h2, hscan]

theorem gnq_eq_scan_some (s : Survey) (st : SurveyState) (q : Question)
    (h1 : st.is_complete = false) (h2 : st.is_structured_complete = false)
    (hscan : findFirstShown (pendingSorted s st) st.answers = Except.ok (some q)) :
    s.get_next_question st = (st, Except.ok (some q)) := by
  rw [Survey.get_next_question]
  simp [h1, h2, hscan]

theorem gnq_eq_scan_none (s : Survey) (st : SurveyState)
    (h1 : st.is_complete = false) (h2 : st.is_structured_complete = false)
    (hscan : findFirstShown (pendingSorted s st) st.answers = Except.ok Option.none) :
    s.get_next_question st = s.finalPhase { st with is_structured_complete := true } := by
  rw [Survey.get_next_question]
  simp [h1, h2, hscan]

theorem gnq_fst_cases (s : Survey) (st : SurveyState) :
    (s.get_next_question st).1 = st
      ∨ ((s.get_next_question st).1 = { st with is_structured_complete := true }
          ∧ st.is_structured_complete = false) := by
  by_cases hcpl : st.is_complete = true
  · left; rw [gnq_eq_done s st hcpl]
  · rw [Bool.not_eq_true] at hcpl
    by_cases hstr : st.is_structured_complete = true
    · left; rw [gnq_eq_structured s st hcpl hstr]; exact finalPhase_fst s st
    · rw [Bool.not_eq_true] at hstr
      cases hscan : findFirstShown (pendingSorted s st) st.answers with
      | error e => left; rw [gnq_eq_scan_err s st e hcpl hstr hscan]
      | ok o =>
          cases o with
          | some q => left; rw [gnq_eq_scan_some s st q hcpl hstr hscan]
          | none =>
              right
              rw [gnq_eq_scan_none s st hcpl hstr hscan]
              exact ⟨finalPhase_fst s { st with is_structured_complete := true }, hstr⟩

theorem pendingSorted_nonfinal (s : Survey) (st : SurveyState) (q : Question)
    (h : q ∈ pendingSorted s st) : q.is_final = false := by
  rw [pendingSorted, mem_sortByOrder, List.mem_filter] at h
  obtain ⟨-, hp⟩ := h
  simp only [Bool.and_eq_true, Bool.not_eq_true'] at hp
  exact hp.1.1

/-- Any question returned by get_next_question with is_final = true came from
the finalPhase branch: the returned state has is_structured_complete = true,
the question is the first is_final question of the survey, and its id is not
among the answered question ids of the input state. -/
theorem gnq_some_final (s : Survey) (st : SurveyState) (q : Question)
    (h : (s.get_next_question st).2 = Except.ok (some q)) (hfin : q.is_final = true) :
    (s.get_next_question st).1.is_structured_complete = true
      ∧ s.questions.find? (fun x => x.is_final) = some q
      ∧ q.id ∉ st.answered_questions := by
  by_cases hcpl : st.is_complete = true
  · rw [gnq_eq_done s st hcpl] at h; cases h
  · rw [Bool.not_eq_true] at hcpl
    by_cases hstr : st.is_structured_complete = true
    · rw [gnq_eq_structured s st hcpl hstr] at h ⊢
      obtain ⟨hfind, -, hcont⟩ := finalPhase_some s st q h
      refine ⟨?_, hfind, hcont⟩
      rw [finalPhase_fst s st]; exact hstr
    · rw [Bool.not_eq_true] at hstr
      cases hscan : findFirstShown (pendingSorted s st) st.answers with
      | error e => rw [gnq_eq_scan_err s st e hcpl hstr hscan] at h; cases h
      | ok o =>
          cases o with
          | some q2 =>
              rw [gnq_eq_scan_some s st q2 hcpl hstr hscan] at h
              obtain ⟨hm, -⟩ := findFirstShown_some _ _ _ hscan
              have hf2 : q2.is_final = false := pendingSorted_nonfinal s st q2 hm
              have hqq : q2 = q := Option.some.inj (Except.ok.inj h)
              rw [hqq] at hf2
              rw [hf2] at hfin
              cases hfin
          | none =>
              rw [gnq_eq_scan_none s st hcpl hstr hscan] at h ⊢
              obtain ⟨hfind, -, hcont⟩ :=
                finalPhase_some s { st with is_structured_complete := true } q h
              refine ⟨?_, hfind, hcont⟩
              rw [finalPhase_fst s { st with is_structured_complete := true }]

/-- Any question returned by get_next_question with is_final = false came from
the candidate scan, hence passed should_show against the input answers. -/
theorem gnq_some_nonfinal (s : Survey) (st : SurveyState) (q : Question)
    (h : (s.get_next_question st).2 = Except.ok (some q)) (hfin : q.is_final = false) :
    q.should_show st.answers = Except.ok true := by
  by_cases hcpl : st.is_complete = true
  · rw [gnq_eq_done s st hcpl] at h; cases h
  · rw [Bool.not_eq_true] at hcpl
    by_cases hstr : st.is_structured_complete = true
    · rw [gnq_eq_structured s st hcpl hstr] at h
      obtain ⟨-, hq, -⟩ := finalPhase_some s st q h
      rw [hq] at hfin; cases hfin
    · rw [Bool.not_eq_true] at hstr
      cases hscan : findFirstShown (pendingSorted s st) st.answers with
      | error e => rw [gnq_eq_scan_err s st e hcpl hstr hscan] at h; cases h
      | ok o =>
          cases o with
          | some q2 =>
              rw [gnq_eq_scan_some s st q2 hcpl hstr hscan] at h
              have hqq : q2 = q := Option.some.inj (Except.ok.inj h)
              rw [hqq] at hscan
              exact (findFirstShown_some _ _ _ hscan).2
          | none =>
              rw [gnq_eq_scan_none s st hcpl hstr hscan] at h
              obtain ⟨-, hq, -⟩ :=
                finalPhase_some s { st with is_structured_complete := true } q h
              rw [hq] at hfin; cases hfin

theorem length_le_one_mem_eq {α : Type} {l : List α} (h : l.length ≤ 1) {a b : α}
    (ha : a ∈ l) (hb : b ∈ l) : a = b := by
  match l with
  | [] => cases ha
  | [x] =>
      rw [List.mem_singleton] at ha hb
      rw [ha, hb]
  | x :: y :: t => simp at h

/-- An empty answer (None or the empty string) never coerces to a number. -/
theorem pyEmpty_pyFloat_none (v : Value) (h : pyEmpty v = true) :
    pyFloat v = Option.none := by
  rw [pyEmpty, Bool.or_eq_true, decide_eq_true_eq] at h
  rcases h with h | h
  · rw [h]; rfl
  · cases v with
    | pyNone => rfl
    | str s =>
        simp only [valueEq, beq_iff_eq] at h
        rw [h]
        rfl
    | num q => simp [valueEq] at h
    | boolV b => simp [valueEq] at h

/-! Concrete fixtures used by counterexamples and witnesses -/

def q1text : Question :=
  { id := "q1", order := 0, text := "first", type := QuestionType.text }

def surveyOne : Survey :=
  { id := "s1", title := "t", description := "d", questions := [q1text] }

def svcNoResponses : SurveyService := { surveys := [("s1", surveyOne)] }

def condOnA : Condition :=
  Condition.mk ("A") ConditionalOperator.equals (Value.str ("x"))

def qRefA : Question := { id := "A", order := 0, text := "a", type := QuestionType.text }

def qCondFinal : Question :=
  { id := "B", order := 1, text := "b", type := QuestionType.text,
    is_final := true, conditions := some [condOnA] }

def surveyCondFinal : Survey := { id := "sc", questions := [qRefA, qCondFinal] }

def stSkippedA : SurveyState := { skipped_questions := ["A"] }

def qCondNF : Question :=
  { id := "B2", order := 1, text := "b", type := QuestionType.text,
    conditions := some [condOnA] }

def surveyW3 : Survey := { id := "sw3", questions := [qRefA, qCondNF] }

def stEmpty : SurveyState := {}

def qFinalPlain : Question :=
  { id := "F", order := 1, text := "f", type := QuestionType.text, is_final := true }

def surveyOneFinal : Survey := { id := "sf", questions := [qRefA, qFinalPlain] }

def stAnsA : SurveyState :=
  { answered_questions := ["A"], answers := [(("A"), Value.str ("done"))] }

def stDone : SurveyState :=
  { answered_questions := ["q1"], answers := [(("q1"), Value.str ("hi"))],
    is_structured_complete := true, is_complete := true }

def svcDone : SurveyService :=
  { surveys := [("s1", surveyOne)], survey_states := [("s1", [("u1", stDone)])] }

def c1c : Condition :=
  Condition.mk ("p") ConditionalOperator.greater_than (Value.num 2)

def c1d : Condition :=
  Condition.mk ("p") ConditionalOperator.less_than (Value.str ("oops"))

/-! Claim theorems -/

/-- C1 counterexample: the claim says a greater_than condition whose prior
answer does not coerce to a number returns false; on the condition (operator
greater_than, reference 2) evaluated at the non-numeric prior answer "abc",
Condition.evaluate instead raises (float("abc") has no try/except around it),
so it does not return false. -/
theorem c1_counterexample :
    c1c.evaluate (Value.str ("abc")) = Except.error PyErr.exc
      ∧ c1c.evaluate (Value.str ("abc")) ≠ Except.ok false := by
  constructor
  · rfl
  · intro h
    cases h

/-- C1 (amended): for greater_than / less_than, a prior answer of None yields
false; for a non-None prior answer, failure of numeric coercion of either
operand makes Condition.evaluate raise (propagate the exception) rather than
return false. -/
theorem c1_coercion_failure_raises :
    (∀ c : Condition, c.evaluate Value.pyNone = Except.ok false)
    ∧ (∀ (c : Condition) (v : Value),
        (c.operator = ConditionalOperator.greater_than
          ∨ c.operator = ConditionalOperator.less_than) →
        v ≠ Value.pyNone →
        (pyFloat v = Option.none ∨ pyFloat c.value = Option.none) →
        c.evaluate v = Except.error PyErr.exc) := by
  constructor
  · exact evaluate_absent
  · intro c v hop hv hfail
    rw [Condition.evaluate, if_neg hv]
    rcases hop with hgt | hlt
    · rw [hgt]
      rcases hfail with hf | hf
      · cases hcv : pyFloat c.value <;> simp [hf, hcv]
      · cases hpv : pyFloat v <;> simp [hf, hpv]
    · rw [hlt]
      rcases hfail with hf | hf
      · cases hcv : pyFloat c.value <;> simp [hf, hcv]
      · cases hpv : pyFloat v <;> simp [hf, hpv]

theorem c1_witness : c1d.evaluate (Value.num 3) = Except.error PyErr.exc :=
  c1_coercion_failure_raises.2 c1d (Value.num 3) (Or.inr rfl) (by decide) (Or.inr rfl)

/-- C2: the claim says empty responses give a report with completion_rate 0 and
average_completion_time 0 and no exception.  The service-level
get_survey_results instead raises AttributeError on any survey, because its
class never initializes self.responses (first conjunct, evaluated on a service
holding survey "s1" with no responses).  The models-level get_survey_analytics
does implement the division guard: a survey id mapped to an empty response
dict yields the zero-valued report (second conjunct). -/
theorem c2_results_attribute_bug :
    svcNoResponses.get_survey_results ("s1") = Except.error PyErr.attrErr
    ∧ get_survey_analytics [(("s1"), [])] ("s1")
        = some { total_responses := 0, completed_responses := 0, completion_rate := 0,
                 average_completion_time_seconds := 0, answer_distribution := [] } := by
  constructor
  · rfl
  · rfl

/-- C3 counterexample: the claim says a question with a condition on an
unanswered or skipped question A is never returned.  In the survey holding
non-final A and final B (B conditioned on A equals "x"), with A skipped and no
answers recorded, get_next_question returns B: the final-question branch never
evaluates conditions. -/
theorem c3_counterexample :
    getEntry stSkippedA.answers ("A") = Option.none
    ∧ ("A" ∈ stSkippedA.skipped_questions)
    ∧ qCondFinal.conditions = some [condOnA]
    ∧ (surveyCondFinal.get_next_question stSkippedA).2 = Except.ok (some qCondFinal) := by
  refine ⟨rfl, ?_, rfl, rfl⟩
  exact List.mem_singleton.mpr rfl

/-- C3 (amended): restricted to non-final questions the claim holds: a
non-final question carrying a condition whose referenced answer is absent from
the answers map (in particular when the referenced question was skipped
without being answered) is never returned by get_next_question; the
final-question branch does not evaluate conditions, so a final question is not
covered. -/
theorem c3_nonfinal_hidden_when_ref_absent (s : Survey) (st : SurveyState) (q : Question)
    (hfin : q.is_final = false) (cs : List Condition) (hcs : q.conditions = some cs)
    (c : Condition) (hc : c ∈ cs)
    (habs : getEntry st.answers c.previous_question_id = Option.none) :
    (s.get_next_question st).2 ≠ Except.ok (some q) := by
  intro h
  have hss := gnq_some_nonfinal s st q h hfin
  have hall := should_show_true q st.answers hss cs hcs c hc
  rw [habs] at hall
  simp only [Option.getD_none] at hall
  rw [evaluate_absent c] at hall
  cases hall

theorem c3_witness :
    (surveyW3.get_next_question stEmpty).2 ≠ Except.ok (some qCondNF) :=
  c3_nonfinal_hidden_when_ref_absent surveyW3 stEmpty qCondNF rfl [condOnA] rfl
    condOnA (List.mem_singleton.mpr rfl) rfl

/-- C4: for a survey with at most one is_final question, get_next_question
returns a final question only with is_structured_complete true on the returned
state (set lazily within the call when needed) and only while its id is absent
from answered_question_ids; and once the final question's id is in
answered_question_ids, no call from such a state returns a final question. -/
theorem c4_final_gated (s : Survey) (hone : countFinal s ≤ 1) (st : SurveyState) :
    (∀ q : Question, (s.get_next_question st).2 = Except.ok (some q) →
        q.is_final = true →
        (s.get_next_question st).1.is_structured_complete = true
          ∧ q.id ∉ st.answered_questions)
    ∧ (∀ qf : Question, qf ∈ s.questions → qf.is_final = true →
        qf.id ∈ st.answered_questions →
        ∀ q : Question, (s.get_next_question st).2 = Except.ok (some q) →
          q.is_final = false) := by
  constructor
  · intro q h hfin
    obtain ⟨h1, -, h3⟩ := gnq_some_final s st q h hfin
    exact ⟨h1, h3⟩
  · intro qf hqf hqfin hans q h
    by_cases hfin : q.is_final = true
    · obtain ⟨-, hfind, hnot⟩ := gnq_some_final s st q h hfin
      have hqmem : q ∈ s.questions.filter (fun x => x.is_final) :=
        List.mem_filter.mpr ⟨List.mem_of_find?_eq_some hfind, List.find?_some hfind⟩
      have hqfmem : qf ∈ s.questions.filter (fun x => x.is_final) :=
        List.mem_filter.mpr ⟨hqf, hqfin⟩
      have hqq : q = qf := length_le_one_mem_eq hone hqmem hqfmem
      rw [hqq] at hnot
      exact absurd hans hnot
    · exact Bool.eq_false_iff.mpr hfin

theorem c4_witness :
    (surveyOneFinal.get_next_question stAnsA).2 = Except.ok (some qFinalPlain)
    ∧ (surveyOneFinal.get_next_question stAnsA).1.is_structured_complete = true
    ∧ qFinalPlain.id ∉ stAnsA.answered_questions :=
  ⟨rfl, (c4_final_gated surveyOneFinal (by decide) stAnsA).1 qFinalPlain rfl rfl⟩

/-- C5 counterexample: the claim says submit_answer on a completed session
fails or is rejected.  On the completed session below (is_complete already
true), resubmitting the sole question succeeds with the completion message and
mutates the session: answered_questions grows to two copies of "q1" and
last_interaction is updated. -/
theorem c5_counterexample :
    stDone.is_complete = true
    ∧ (svcDone.submit_answer ("s1") ("u1") ("q1") (Value.str ("hi")) 7).2
        = Except.ok SubmitResult.completedMsg
    ∧ (svcDone.submit_answer ("s1") ("u1") ("q1") (Value.str ("hi")) 7).1.stateOf
          ("s1") ("u1")
        = some { current_question_idx := 0, answered_questions := ["q1", "q1"],
                 skipped_questions := [], answers := [(("q1"), Value.str ("hi"))],
                 is_structured_complete := true, is_complete := true,
                 last_interaction := 7 } := by
  refine ⟨rfl, rfl, rfl⟩

/-- C5 (amended): once is_complete is true, get_next_question always returns
none with the state unchanged; submit_answer, however, performs no
completeness check: a submission on a completed session that passes the
survey/session/question/validation checks is accepted, records the answer
(appending to answered_question_ids) and returns the completion message. -/
theorem c5_complete_behavior :
    (∀ (s : Survey) (st : SurveyState), st.is_complete = true →
        s.get_next_question st = (st, Except.ok Option.none))
    ∧ (∀ (svc : SurveyService) (sid uid qid : String) (v : Value) (now : Nat)
        (survey : Survey) (st : SurveyState) (q : Question),
        getEntry svc.surveys sid = some survey →
        svc.stateOf sid uid = some st →
        st.is_complete = true →
        survey.questions.find? (fun x => x.id == qid) = some q →
        survey.validate_answer q v = Except.ok true →
        (svc.submit_answer sid uid qid v now).2 = Except.ok SubmitResult.completedMsg
          ∧ (svc.submit_answer sid uid qid v now).1.stateOf sid uid
              = some { st.add_answer qid v now with is_complete := true }) := by
  constructor
  · intro s st h
    exact gnq_eq_done s st h
  · intro svc sid uid qid v now survey st q hsurvey hstate hcompl hfind hvalid
    have hst1 : (st.add_answer qid v now).is_complete = true := hcompl
    have hgnq := gnq_eq_done survey (st.add_answer qid v now) hst1
    have heq : svc.submit_answer sid uid qid v now
        = (svc.putState sid uid { st.add_answer qid v now with is_complete := true },
           Except.ok SubmitResult.completedMsg) := by
      simp only [SurveyService.submit_answer, hsurvey, hstate, hfind, hvalid, hgnq]
    rw [heq]
    exact ⟨rfl, stateOf_putState svc sid uid _⟩

theorem c5_witness :
    (svcDone.submit_answer ("s1") ("u1") ("q1") (Value.str ("hi")) 9).2
        = Except.ok SubmitResult.completedMsg
    ∧ (svcDone.submit_answer ("s1") ("u1") ("q1") (Value.str ("hi")) 9).1.stateOf
          ("s1") ("u1")
        = some { stDone.add_answer ("q1") (Value.str ("hi")) 9 with is_complete := true } :=
  c5_complete_behavior.2 svcDone ("s1") ("u1") ("q1") (Value.str ("hi")) 9
    surveyOne stDone q1text rfl rfl rfl rfl rfl

/-- C6: submit_answer fails with the 404 "Survey not found" HTTPException
(the NotFound of the spec) when the survey id is unknown, with the 400
"Survey session not found" HTTPException when no session exists for the pair,
with the 400 "Question not found" HTTPException (QuestionNotFound) when the
question id is not in the survey's question list, and with the 400
"Invalid answer" HTTPException (InvalidAnswer) when validation rejects the
value; in each of these cases the returned service state is exactly the input
service state, so the session is unchanged and the answer is recorded only
after all checks pass. -/
theorem c6_submit_failure_modes :
    (∀ (svc : SurveyService) (sid uid qid : String) (v : Value) (now : Nat),
        getEntry svc.surveys sid = Option.none →
        svc.submit_answer sid uid qid v now
          = (svc, Except.error (PyErr.http 404 ("Survey not found"))))
    ∧ (∀ (svc : SurveyService) (sid uid qid : String) (v : Value) (now : Nat)
        (survey : Survey),
        getEntry svc.surveys sid = some survey →
        svc.stateOf sid uid = Option.none →
        svc.submit_answer sid uid qid v now
          = (svc, Except.error (PyErr.http 400 ("Survey session not found"))))
    ∧ (∀ (svc : SurveyService) (sid uid qid : String) (v : Value) (now : Nat)
        (survey : Survey) (st : SurveyState),
        getEntry svc.surveys sid = some survey →
        svc.stateOf sid uid = some st →
        survey.questions.find? (fun x => x.id == qid) = Option.none →
        svc.submit_answer sid uid qid v now
          = (svc, Except.error (PyErr.http 400 ("Question not found"))))
    ∧ (∀ (svc : SurveyService) (sid uid qid : String) (v : Value) (now : Nat)
        (survey : Survey) (st : SurveyState) (q : Question),
        getEntry svc.surveys sid = some survey →
        svc.stateOf sid uid = some st →
        survey.questions.find? (fun x => x.id == qid) = some q →
        survey.validate_answer q v = Except.ok false →
        svc.submit_answer sid uid qid v now
          = (svc, Except.error (PyErr.http 400 ("Invalid answer")))) := by
  refine ⟨?_, ?_, ?_, ?_⟩
  · intro svc sid uid qid v now h1
    simp only [SurveyService.submit_answer, h1]
  · intro svc sid uid qid v now survey h1 h2
    simp only [SurveyService.submit_answer, h1, h2]
  · intro svc sid uid qid v now survey st h1 h2 h3
    simp only [SurveyService.submit_answer, h1, h2, h3]
  · intro svc sid uid qid v now survey st q h1 h2 h3 h4
    simp only [SurveyService.submit_answer, h1, h2, h3, h4]

def svcEmptyC6 : SurveyService := {}

def svcNoSession : SurveyService := { surveys := [("s1", surveyOne)] }

theorem c6_witness :
    svcEmptyC6.submit_answer ("s1") ("u1") ("q1") (Value.str ("hi")) 1
        = (svcEmptyC6, Except.error (PyErr.http 404 ("Survey not found")))
    ∧ svcNoSession.submit_answer ("s1") ("u1") ("q1") (Value.str ("hi")) 1
        = (svcNoSession, Except.error (PyErr.http 400 ("Survey session not found")))
    ∧ svcDone.submit_answer ("s1") ("u1") ("zz") (Value.str ("hi")) 1
        = (svcDone, Except.error (PyErr.http 400 ("Question not found")))
    ∧ svcDone.submit_answer ("s1") ("u1") ("q1") Value.pyNone 1
        = (svcDone, Except.error (PyErr.http 400 ("Invalid answer"))) :=
  ⟨c6_submit_failure_modes.1 svcEmptyC6 ("s1") ("u1") ("q1") (Value.str ("hi")) 1 rfl,
   c6_submit_failure_modes.2.1 svcNoSession ("s1") ("u1") ("q1") (Value.str ("hi")) 1
     surveyOne rfl rfl,
   c6_submit_failure_modes.2.2.1 svcDone ("s1") ("u1") ("zz") (Value.str ("hi")) 1
     surveyOne stDone rfl rfl rfl,
   c6_submit_failure_modes.2.2.2 svcDone ("s1") ("u1") ("q1") Value.pyNone 1
     surveyOne stDone q1text rfl rfl rfl rfl⟩

def svcFresh : SurveyService :=
  { surveys := [("s1", surveyOne)], survey_states := [("s1", [("u1", stEmpty)])] }

def sub1 := svcFresh.submit_answer ("s1") ("u1") ("q1") (Value.str ("hi")) 1

def sub2 := sub1.1.submit_answer ("s1") ("u1") ("q1") (Value.str ("hi")) 2

/-- C7 counterexample: the claim says no question id ever appears twice in
answered_question_ids.  Submitting the same (valid) answer to question "q1"
twice in a row succeeds both times — submit_answer never checks whether the
question was already answered — and leaves answered_question_ids equal to
["q1", "q1"], which is not duplicate-free. -/
theorem c7_counterexample :
    sub1.2 = Except.ok SubmitResult.completedMsg
    ∧ sub2.2 = Except.ok SubmitResult.completedMsg
    ∧ (sub2.1.stateOf ("s1") ("u1")).map SurveyState.answered_questions
        = some ["q1", "q1"]
    ∧ ¬ (["q1", "q1"] : List String).Nodup := by
  refine ⟨rfl, rfl, rfl, by decide⟩

/-- C7 (amended): across any submit_answer call, the session's
answered_question_ids list only grows — it is either unchanged (on a failed
call) or extended by exactly the submitted question id (on a call that records
the answer) — and no call removes ids; ids may however repeat, since
resubmitting an already answered question appends its id again. -/
theorem c7_answered_only_grows (svc : SurveyService) (sid uid qid : String) (v : Value)
    (now : Nat) (st st2 : SurveyState)
    (hpre : svc.stateOf sid uid = some st)
    (hpost : (svc.submit_answer sid uid qid v now).1.stateOf sid uid = some st2) :
    st2.answered_questions = st.answered_questions
      ∨ st2.answered_questions = st.answered_questions ++ [qid] := by
  cases hsurvey : getEntry svc.surveys sid with
  | none =>
      have heq : (svc.submit_answer sid uid qid v now).1 = svc := by
        simp only [SurveyService.submit_answer, hsurvey]
      rw [heq, hpre] at hpost
      left
      rw [Option.some.inj hpost]
  | some survey =>
      cases hfind : survey.questions.find? (fun x => x.id == qid) with
      | none =>
          have heq : (svc.submit_answer sid uid qid v now).1 = svc := by
            simp only [SurveyService.submit_answer, hsurvey, hpre, hfind]
          rw [heq, hpre] at hpost
          left
          rw [Option.some.inj hpost]
      | some question =>
          cases hvalid : survey.validate_answer question v with
          | error e =>
              have heq : (svc.submit_answer sid uid qid v now).1 = svc := by
                simp only [SurveyService.submit_answer, hsurvey, hpre, hfind, hvalid]
              rw [heq, hpre] at hpost
              left
              rw [Option.some.inj hpost]
          | ok b =>
              cases b with
              | false =>
                  have heq : (svc.submit_answer sid uid qid v now).1 = svc := by
                    simp only [SurveyService.submit_answer, hsurvey, hpre, hfind, hvalid]
                  rw [heq, hpre] at hpost
                  left
                  rw [Option.some.inj hpost]
              | true =>
                  cases hg : survey.get_next_question (st.add_answer qid v now) with
                  | mk state2 r =>
                      have hans2 : state2.answered_questions
                          = st.answered_questions ++ [qid] := by
                        have hf := gnq_fst_cases survey (st.add_answer qid v now)
                        rw [hg] at hf
                        rcases hf with hf | ⟨hf, -⟩
                        · rw [show state2 = st.add_answer qid v now from hf]
                          rfl
                        · rw [show state2
                            = { st.add_answer qid v now with
                                is_structured_complete := true } from hf]
                          rfl
                      cases r with
                      | error e =>
                          have heq : (svc.submit_answer sid uid qid v now).1
                              = svc.putState sid uid state2 := by
                            simp only [SurveyService.submit_answer, hsurvey, hpre,
                              hfind, hvalid, hg]
                          rw [heq, stateOf_putState] at hpost
                          right
                          rw [← Option.some.inj hpost]
                          exact hans2
                      | ok o =>
                          cases o with
                          | none =>
                              have heq : (svc.submit_answer sid uid qid v now).1
                                  = svc.putState sid uid
                                      { state2 with is_complete := true } := by
                                simp only [SurveyService.submit_answer, hsurvey, hpre,
                                  hfind, hvalid, hg]
                              rw [heq, stateOf_putState] at hpost
                              right
                              rw [← Option.some.inj hpost]
                              exact hans2
                          | some nq =>
                              have heq : (svc.submit_answer sid uid qid v now).1
                                  = svc.putState sid uid state2 := by
                                simp only [SurveyService.submit_answer, hsurvey, hpre,
                                  hfind, hvalid, hg]
                              rw [heq, stateOf_putState] at hpost
                              right
                              rw [← Option.some.inj hpost]
                              exact hans2

theorem c7_witness :
    ({ current_question_idx := 0, answered_questions := ["q1"],
       skipped_questions := [], answers := [(("q1"), Value.str ("hi"))],
       is_structured_complete := true, is_complete := true,
       last_interaction := 1 } : SurveyState).answered_questions
        = stEmpty.answered_questions
    ∨ ({ current_question_idx := 0, answered_questions := ["q1"],
         skipped_questions := [], answers := [(("q1"), Value.str ("hi"))],
         is_structured_complete := true, is_complete := true,
         last_interaction := 1 } : SurveyState).answered_questions
        = stEmpty.answered_questions ++ ["q1"] :=
  c7_answered_only_grows svcFresh ("s1") ("u1") ("q1") (Value.str ("hi")) 1
    stEmpty _ rfl rfl

def qmEmptyOpt : Question :=
  { id := "m", order := 0, text := "t", type := QuestionType.multiple_choice,
    options := some [""] }

def qScale15 : Question :=
  { id := "sc", order := 0, text := "t", type := QuestionType.scale,
    scale_range := some (1, 5) }

/-- C8 counterexample: the claim says a multiple_choice answer is valid iff it
is an exact member of options.  For a required multiple_choice question whose
options list contains the empty string, the empty string is a member of
options, yet validate_answer returns false: the required-and-empty rule fires
first. -/
theorem c8_counterexample :
    (∃ o ∈ qmEmptyOpt.options.getD [], valueEq (Value.str ("")) (Value.str o) = true)
    ∧ surveyOne.validate_answer qmEmptyOpt (Value.str ("")) = Except.ok false := by
  refine ⟨⟨(""), ?_, rfl⟩, rfl⟩
  exact List.mem_singleton.mpr rfl

/-- C8 (amended): validate_answer returns false whenever the question is
required and the value is empty or missing, and this rule takes precedence; a
scale question (with its scale_range present) validates exactly when the value
coerces to a number inside the inclusive range, coercion failure giving false;
a multiple_choice question (with its options present) not caught by the
required-empty rule validates exactly when the value equals some member of
options. -/
theorem c8_validate_amended :
    (∀ (s : Survey) (q : Question) (v : Value),
        q.required = true → pyEmpty v = true →
        s.validate_answer q v = Except.ok false)
    ∧ (∀ (s : Survey) (q : Question) (v : Value) (lo hi : Int),
        q.type = QuestionType.scale → q.scale_range = some (lo, hi) →
        (s.validate_answer q v = Except.ok true
          ↔ ∃ x : ℚ, pyFloat v = some x ∧ (lo : ℚ) ≤ x ∧ x ≤ (hi : ℚ)))
    ∧ (∀ (s : Survey) (q : Question) (v : Value) (opts : List String),
        q.type = QuestionType.multiple_choice → q.options = some opts →
        ¬(q.required = true ∧ pyEmpty v = true) →
        (s.validate_answer q v = Except.ok true
          ↔ ∃ o ∈ opts, valueEq v (Value.str o) = true)) := by
  refine ⟨?_, ?_, ?_⟩
  · intro s q v hreq hempty
    simp [Survey.validate_answer, hreq, hempty]
  · intro s q v lo hi htype hrange
    by_cases hre : q.required = true ∧ pyEmpty v = true
    · have hnone : pyFloat v = Option.none := pyEmpty_pyFloat_none v hre.2
      simp [Survey.validate_answer, hre.1, hre.2, hnone]
    · have hcond : ¬((q.required && pyEmpty v) = true) := by
        rw [Bool.and_eq_true]
        exact hre
      cases hpf : pyFloat v with
      | none => simp [Survey.validate_answer, hcond, htype, hrange, hpf]
      | some x => simp [Survey.validate_answer, hcond, htype, hrange, hpf]
  · intro s q v opts htype hopts hre
    have hcond : ¬((q.required && pyEmpty v) = true) := by
      rw [Bool.and_eq_true]
      exact hre
    have hns : ¬(q.type = QuestionType.scale) := by
      rw [htype]
      intro hcontra
      cases hcontra
    simp [Survey.validate_answer, hcond, hns, htype, hopts, List.any_eq_true]

theorem c8_witness :
    surveyOne.validate_answer qScale15 (Value.num 3) = Except.ok true :=
  (c8_validate_amended.2.1 surveyOne qScale15 (Value.num 3) 1 5 rfl rfl).mpr
    ⟨3, rfl, by norm_num, by norm_num⟩

def qMalformedMc : Question :=
  { id := "bad", order := 0, text := "t", type := QuestionType.multiple_choice }

def qScaleBad : Question :=
  { id := "bad2", order := 1, text := "t", type := QuestionType.scale,
    scale_range := some (5, 1) }

def surveyBad : Survey := { id := "sb", questions := [qMalformedMc] }

/-- C9 counterexample: the claim says malformed questions (multiple_choice
without options, scale with min greater than max) are rejected at
creation/update time with InvalidDefinition.  create_survey stores a survey
whose only question is a multiple_choice question with no options, and
add_question appends a scale question with range (5, 1) — both succeed and
store the malformed definition; no definition-level check exists. -/
theorem c9_counterexample :
    malformedQuestion qMalformedMc = true
    ∧ malformedQuestion qScaleBad = true
    ∧ getEntry ((SurveyService.create_survey {} surveyBad).2).surveys ("sb")
        = some surveyBad
    ∧ (SurveyService.add_question { surveys := [("sb", surveyBad)] } ("sb") qScaleBad).2
        = Except.ok { surveyBad with questions := [qMalformedMc, qScaleBad] } := by
  refine ⟨by decide, by decide, rfl, rfl⟩

/-- C9 (amended): no InvalidDefinition check exists: create_survey stores any
survey it is given — including one containing a malformed question — and
add_question appends any question — including a malformed one — to the stored
survey; malformed definitions are accepted and stored rather than rejected. -/
theorem c9_no_definition_check :
    (∀ (svc : SurveyService) (s : Survey),
        (∃ q ∈ s.questions, malformedQuestion q = true) →
        getEntry ((svc.create_survey s).2).surveys s.id = some s)
    ∧ (∀ (svc : SurveyService) (sid : String) (q : Question) (survey : Survey),
        getEntry svc.surveys sid = some survey →
        malformedQuestion q = true →
        (svc.add_question sid q).2
            = Except.ok { survey with questions := survey.questions ++ [q] }
          ∧ getEntry ((svc.add_question sid q).1).surveys sid
              = some { survey with questions := survey.questions ++ [q] }) := by
  constructor
  · intro svc s hmal
    exact getEntry_setEntry_self svc.surveys s.id s
  · intro svc sid q survey hs hmal
    have heq : svc.add_question sid q
        = ({ svc with surveys := (setEntry svc.surveys sid
              ({ survey with questions := survey.questions ++ [q] })) },
           Except.ok { survey with questions := survey.questions ++ [q] }) := by
      simp only [SurveyService.add_question, hs]
    rw [heq]
    exact ⟨rfl, getEntry_setEntry_self svc.surveys sid _⟩

theorem c9_witness :
    getEntry ((SurveyService.create_survey {} surveyBad).2).surveys surveyBad.id
      = some surveyBad :=
  c9_no_definition_check.1 {} surveyBad
    ⟨qMalformedMc, List.mem_singleton.mpr rfl, by decide⟩

/-- C10: get_next_question leaves every field of the session state unchanged
except is_structured_complete, which it either leaves unchanged or sets from
false to true (when no non-final candidate was eligible); answered and skipped
question ids, the answers map, is_complete, the index cursor and
last_interaction are all preserved. -/
theorem c10_frame (s : Survey) (st : SurveyState) :
    (s.get_next_question st).1.answered_questions = st.answered_questions
    ∧ (s.get_next_question st).1.skipped_questions = st.skipped_questions
    ∧ (s.get_next_question st).1.answers = st.answers
    ∧ (s.get_next_question st).1.is_complete = st.is_complete
    ∧ (s.get_next_question st).1.current_question_idx = st.current_question_idx
    ∧ (s.get_next_question st).1.last_interaction = st.last_interaction
    ∧ ((s.get_next_question st).1.is_structured_complete = st.is_structured_complete
        ∨ (st.is_structured_complete = false
            ∧ (s.get_next_question st).1.is_structured_complete = true)) := by
  rcases gnq_fst_cases s st with h | ⟨h, h2⟩
  · rw [h]
    exact ⟨rfl, rfl, rfl, rfl, rfl, rfl, Or.inl rfl⟩
  · rw [h]
    exact ⟨rfl, rfl, rfl, rfl, rfl, rfl, Or.inr ⟨h2, rfl⟩⟩

end Levi
